import Mathlib

/-!
Verification development for the offline diagnostic shell
(`px-diag-analyzer.py`).  The Python source is shallowly embedded:

* strings are Lean `String`s (lists of characters), Python `str.split()`,
  `str.strip()`, `str.rstrip()`, slicing and substring tests are modelled
  character by character;
* the JSON values produced by the external `json` module are modelled by
  the inductive type `Json`; the parser and serialiser themselves are
  external collaborators and appear as fields of the environment `Env`;
* Python exceptions (`FileNotFoundError`, `json.JSONDecodeError`,
  `KeyError`, `TypeError`, `AttributeError`, `ValueError`) are modelled by
  `Except PyErr`; an uncaught exception aborts the session loop, which the
  relation `runSession` makes explicit;
* machine integers do not occur: Python integers are unbounded, so `Int`
  is used directly (`//` is `Int.fdiv`, floor division).
-/

/-- Python errors that the embedded code can raise. -/
inductive PyErr where
  | fileNotFound
  | jsonDecode
  | keyError (k : String)
  | typeError
  | attrError
  | valueError
deriving DecidableEq, Repr

/-- Prefix test on character lists (`list1` is a prefix of `list2`). -/
def lpre : List Char → List Char → Bool
  | [], _ => true
  | _ :: _, [] => false
  | a :: as, b :: bs => a == b && lpre as bs

/-- Substring test on character lists, mirroring the Python `in` operator. -/
def linfix (n : List Char) : List Char → Bool
  | [] => n == []
  | c :: cs => lpre n (c :: cs) || linfix n cs

/-- Python `needle in hay` on strings. -/
def pyIn (needle hay : String) : Bool := linfix needle.data hay.data

/-- Python `s.startswith(pre)`. -/
def startsW (pre s : String) : Bool := lpre pre.data s.data

/-- Python `s[n:]`. -/
def strDrop (s : String) (n : Nat) : String := String.mk (s.data.drop n)

/-- Python `str.strip()` (default whitespace strip, both ends). -/
def pyStrip (s : String) : String :=
  String.mk (((s.data.dropWhile Char.isWhitespace).reverse.dropWhile
    Char.isWhitespace).reverse)

/-- Python `str.rstrip()` (default whitespace strip, right end only). -/
def pyRstrip (s : String) : String :=
  String.mk ((s.data.reverse.dropWhile Char.isWhitespace).reverse)

/-- Worker for `str.split()`: splits on runs of whitespace, producing no
empty tokens; `acc` holds the characters of the token being read,
reversed. -/
def pyWords : List Char → List Char → List String
  | [], acc => if acc.isEmpty then [] else [String.mk acc.reverse]
  | c :: cs, acc =>
    if c.isWhitespace then
      if acc.isEmpty then pyWords cs [] else String.mk acc.reverse :: pyWords cs []
    else
      pyWords cs (c :: acc)

/-- Python `cmd.split()` (no separator argument). -/
def tokenize (s : String) : List String := pyWords s.data []

/-- Python `" ".join(tokens)`. -/
def joinSpace : List String → String
  | [] => ""
  | [t] => t
  | t :: ts => t ++ " " ++ joinSpace ts

/-- Python `cmd.split("|", 1)`: characters before and after the first
pipe character, or `none` when there is no pipe. -/
def splitAtPipe : List Char → Option (List Char × List Char)
  | [] => none
  | c :: cs =>
    if c = '|' then some ([], cs)
    else (splitAtPipe cs).map (fun lr => (c :: lr.1, lr.2))

theorem sdata_append (a b : String) : (a ++ b).data = a.data ++ b.data := rfl

theorem lpre_append (xs ys : List Char) : lpre xs (xs ++ ys) = true := by
  induction xs with
  | nil => rfl
  | cons a as ih => simp [lpre, ih]

/-- Reading a run of non-whitespace characters just extends the current
token accumulator. -/
theorem pyWords_append_nonws (t : List Char) :
    ∀ (rest acc : List Char), (∀ c ∈ t, c.isWhitespace = false) →
      pyWords (t ++ rest) acc = pyWords rest (t.reverse ++ acc) := by
  induction t with
  | nil => intro rest acc _; simp
  | cons c cs ih =>
    intro rest acc h
    have hc : c.isWhitespace = false := h c (by simp)
    have hcs : ∀ x ∈ cs, x.isWhitespace = false := fun x hx => h x (by simp [hx])
    have h1 : pyWords ((c :: cs) ++ rest) acc = pyWords (cs ++ rest) (c :: acc) := by
      simp [pyWords, hc]
    rw [h1, ih rest (c :: acc) hcs]
    simp [List.reverse_cons, List.append_assoc]

theorem pyWords_space_cons (rest acc : List Char) (h : acc ≠ []) :
    pyWords (' ' :: rest) acc = String.mk acc.reverse :: pyWords rest [] := by
  have : (' ' : Char).isWhitespace = true := rfl
  simp [pyWords, this, h]

/-- Every token produced by `pyWords` is non-empty and whitespace-free. -/
theorem pyWords_wf : ∀ (cs acc : List Char),
    (∀ c ∈ acc, c.isWhitespace = false) →
    ∀ t ∈ pyWords cs acc, t.data ≠ [] ∧ ∀ c ∈ t.data, c.isWhitespace = false := by
  intro cs
  induction cs with
  | nil =>
    intro acc hacc t ht
    cases acc with
    | nil => simp [pyWords] at ht
    | cons a as =>
      simp only [pyWords, List.isEmpty_cons, Bool.false_eq_true, if_false,
        List.mem_singleton] at ht
      subst ht
      refine ⟨by simp, ?_⟩
      intro c hc
      exact hacc c (List.mem_reverse.mp hc)
  | cons c cs ih =>
    intro acc hacc t ht
    by_cases hw : c.isWhitespace
    · cases acc with
      | nil =>
        simp only [pyWords, hw, if_true, List.isEmpty_nil] at ht
        exact ih [] (by simp) t ht
      | cons a as =>
        simp only [pyWords, hw, if_true, List.isEmpty_cons, Bool.false_eq_true,
          if_false, List.mem_cons] at ht
        rcases ht with ht | ht
        · subst ht
          refine ⟨by simp, ?_⟩
          intro x hx
          exact hacc x (List.mem_reverse.mp hx)
        · exact ih [] (by simp) t ht
    · have hw' : c.isWhitespace = false := by simpa using hw
      simp only [pyWords, hw', Bool.false_eq_true, if_false] at ht
      refine ih (c :: acc) ?_ t ht
      intro x hx
      rcases List.mem_cons.mp hx with rfl | hx
      · exact hw'
      · exact hacc x hx

/-- Splitting a space-join of well-formed tokens recovers the tokens. -/
theorem tokenize_joinSpace : ∀ (l : List String),
    (∀ t ∈ l, t.data ≠ [] ∧ ∀ c ∈ t.data, c.isWhitespace = false) →
    tokenize (joinSpace l) = l := by
  intro l
  induction l with
  | nil => intro _; rfl
  | cons t ts ih =>
    intro h
    obtain ⟨hne, hws⟩ := h t (by simp)
    match ts with
    | [] =>
      show pyWords t.data [] = [t]
      have := pyWords_append_nonws t.data [] [] hws
      rw [List.append_nil] at this
      rw [this]
      have hrev : (t.data.reverse ++ []).isEmpty = false := by
        simp [List.isEmpty_iff, hne]
      simp only [pyWords, hrev, Bool.false_eq_true, if_false]
      simp
    | u :: us =>
      have hrest : ∀ x ∈ u :: us, x.data ≠ [] ∧ ∀ c ∈ x.data, c.isWhitespace = false :=
        fun x hx => h x (by simp [hx])
      show tokenize (t ++ " " ++ joinSpace (u :: us)) = t :: u :: us
      have hdata : (t ++ " " ++ joinSpace (u :: us)).data
          = t.data ++ (' ' :: (joinSpace (u :: us)).data) := by
        rw [sdata_append, sdata_append]
        simp [List.append_assoc]
      unfold tokenize
      rw [hdata, pyWords_append_nonws t.data _ [] hws, List.append_nil,
        pyWords_space_cons _ _ (by simpa using hne)]
      simp only [List.reverse_reverse]
      rw [show String.mk t.data = t from rfl]
      rw [show pyWords (joinSpace (u :: us)).data [] = tokenize (joinSpace (u :: us)) from rfl]
      rw [ih hrest]

/-- JSON values as produced by the external `json.load`.  Object fields
keep their (insertion) order, as Python dicts do.  The datasets in scope
carry integer sizes, so numbers are modelled by `Int`. -/
inductive Json where
  | null
  | bool (b : Bool)
  | num (n : Int)
  | str (s : String)
  | arr (elems : List Json)
  | obj (fields : List (String × Json))

/-- Python truthiness of a parsed JSON value. -/
def truthy : Json → Bool
  | .null => false
  | .bool b => b
  | .num n => n != 0
  | .str s => !s.data.isEmpty
  | .arr l => !l.isEmpty
  | .obj l => !l.isEmpty

/-- Python `v[k]` on a parsed JSON value: `KeyError` when the key is
missing, `TypeError` when the value is not a dict. -/
def getItem (o : Json) (k : String) : Except PyErr Json :=
  match o with
  | .obj l =>
    match l.find? (fun e => e.1 == k) with
    | some e => Except.ok e.2
    | none => Except.error (PyErr.keyError k)
  | _ => Except.error PyErr.typeError

/-- Python `v.get(k, d)`: `AttributeError` when the value is not a dict. -/
def getAttrD (o : Json) (k : String) (d : Json) : Except PyErr Json :=
  match o with
  | .obj l =>
    match l.find? (fun e => e.1 == k) with
    | some e => Except.ok e.2
    | none => Except.ok d
  | _ => Except.error PyErr.attrError

/-- Python `repr` of a parsed JSON value (used inside `str` of
containers).  String escaping is not modelled beyond quoting. -/
def pyRepr : Json → String
  | .null => "None"
  | .bool b => if b then "True" else "False"
  | .num n => toString n
  | .str s => "\x27" ++ s ++ "\x27"
  | .arr l => "[" ++ String.intercalate ", " (l.attach.map (fun e => pyRepr e.1)) ++ "]"
  | .obj l =>
      "\x7b" ++
        String.intercalate ", "
          (l.attach.map (fun e => "\x27" ++ e.1.1 ++ "\x27: " ++ pyRepr e.1.2)) ++
      "\x7d"
decreasing_by
  · have h := List.sizeOf_lt_of_mem e.2
    simp only [Json.arr.sizeOf_spec]
    omega
  · have h := List.sizeOf_lt_of_mem e.2
    have h2 : sizeOf e.1.2 < sizeOf e.1 := by
      obtain ⟨a, b⟩ := e.1
      simp only [Prod.mk.sizeOf_spec]
      omega
    simp only [Json.obj.sizeOf_spec]
    omega

/-- Python `str` of a parsed JSON value (an f-string field without a
format specification). -/
def pyStr : Json → String
  | .null => "None"
  | .bool b => if b then "True" else "False"
  | .num n => toString n
  | .str s => s
  | j => pyRepr j

/-- Python `int(b)` on a parsed JSON value: the identity on numbers,
`True`/`False` map to 1/0, digit strings are parsed, anything else
raises. -/
def digitsVal (cs : List Char) : Option Nat :=
  if !cs.isEmpty && cs.all Char.isDigit then
    some (cs.foldl (fun a c => a * 10 + (c.toNat - 48)) 0)
  else none

def pyParseInt (s : String) : Option Int :=
  match (pyStrip s).data with
  | '-' :: rest => (digitsVal rest).map (fun n => -(n : Int))
  | '+' :: rest => (digitsVal rest).map (fun n => (n : Int))
  | t => (digitsVal t).map (fun n => (n : Int))

def toIntPy : Json → Except PyErr Int
  | .num n => Except.ok n
  | .bool b => Except.ok (if b then 1 else 0)
  | .str s =>
    match pyParseInt s with
    | some n => Except.ok n
    | none => Except.error PyErr.valueError
  | _ => Except.error PyErr.typeError

/-- Python iteration (`for x in v`, `zip`, `enumerate`): lists yield their
elements, strings their characters, dicts their keys; other values raise
`TypeError`. -/
def pyIter : Json → Except PyErr (List Json)
  | .arr l => Except.ok l
  | .str s => Except.ok (s.data.map (fun c => Json.str (String.mk [c])))
  | .obj l => Except.ok (l.map (fun kv => Json.str kv.1))
  | _ => Except.error PyErr.typeError

/-- Left-justified padding to width `w` (Python `format(s, str(w))` on a
`str`; Python pads but never truncates). -/
def padR (s : String) (w : Nat) : String :=
  s ++ String.mk (List.replicate (w - s.data.length) ' ')

/-- Right-justified padding to width `w` (Python number formatting). -/
def padL (s : String) (w : Nat) : String :=
  String.mk (List.replicate (w - s.data.length) ' ') ++ s

/-- Python `format(value, str(w))` for the f-string fields of the table
renderer: strings are left-justified, ints (and bools, which Python
formats as ints) right-justified; other values raise `TypeError`. -/
def pyFormat (j : Json) (w : Nat) : Except PyErr String :=
  match j with
  | .str s => Except.ok (padR s w)
  | .num n => Except.ok (padL (toString n) w)
  | .bool b => Except.ok (padL (if b then "1" else "0") w)
  | _ => Except.error PyErr.typeError

/-- Python `s.upper()` (ASCII; raises `AttributeError` off strings). -/
def pyUpper : Json → Except PyErr String
  | .str s => Except.ok (String.mk (s.data.map Char.toUpper))
  | _ => Except.error PyErr.attrError

/-- Loop body of `human_size`: try each unit in order, dividing by 1024
(`//`, floor division) when the value is still at least 1024.  When the
unit list is exhausted the Python function falls off the loop and
returns `None`. -/
def hsGo : Int → List String → Option String
  | _, [] => none
  | b, u :: us =>
    if b < 1024 then some (toString b ++ " " ++ u)
    else hsGo (b.fdiv 1024) us

/-- `human_size` from the source (`b = int(b)` is the identity on
integers). -/
def human_size (b : Int) : Option String :=
  hsGo b ["B", "KiB", "MiB", "GiB", "TiB"]

/-- Defined from the specification text, for comparison with
`human_size`: divide repeatedly by 1024, selecting the largest unit from
B, KiB, MiB, GiB, TiB such that the value is < 1024 before the final
unit, using truncating division; the final unit accepts any remaining
magnitude. -/
def humanSizeSpec (b : Int) : String :=
  if b < 1024 then toString b ++ " B"
  else if b < 1024 * 1024 then toString (b.fdiv 1024) ++ " KiB"
  else if b < 1024 * 1024 * 1024 then toString (b.fdiv (1024 * 1024)) ++ " MiB"
  else if b < 1024 * 1024 * 1024 * 1024 then
    toString (b.fdiv (1024 * 1024 * 1024)) ++ " GiB"
  else toString (b.fdiv (1024 * 1024 * 1024 * 1024)) ++ " TiB"

/-- `yes_no` from the source. -/
def yes_no (j : Json) : String := if truthy j then "yes" else "no"

/-- `format_shared` from the source (`spec.get(...)` defaults to
`None`). -/
def format_shared (spec : Json) : Except PyErr String := do
  let s4 ← getAttrD spec "sharedv4" Json.null
  if truthy s4 then
    pure "v4"
  else
    let sh ← getAttrD spec "shared" Json.null
    pure (if truthy sh then "yes" else "no")

/-- Result of `parse_command`. -/
structure Parsed where
  base : String
  is_json : Bool
  vol_id : Option String
deriving DecidableEq, Repr

/-- Python `p.isdigit()` (ASCII decimal digits; the inputs in scope are
ASCII). -/
def isDigitTok (s : String) : Bool := !s.data.isEmpty && s.data.all Char.isDigit

/-- `parse_command` from the source: tokenize, record and remove `-j`,
take the first all-digit token as the volume id, and rejoin every token
that is not all digits. -/
def parse_command (cmd : String) : Parsed :=
  let parts := tokenize cmd
  let is_json := parts.contains "-j"
  let parts2 := parts.filter (fun p => p != "-j")
  let vol_id := parts2.find? isDigitTok
  let base_cmd := joinSpace (parts2.filter (fun p => !isDigitTok p))
  ⟨base_cmd, is_json, vol_id⟩

/-- `COMMAND_MAP` from the source: alias string to
(category, artifact name). -/
def COMMAND_MAP : List (String × String × String) :=
  [ ("journalctl", ("misc", "all-journalctl.out")),
    ("lsblk", ("misc", "lsblk.out")),
    ("blkid", ("misc", "blkid.out")),
    ("ip addr show", ("misc", "ip.out")),
    ("mount", ("misc", "mount.out")),
    ("uptime", ("misc", "uptime.out")),
    ("date", ("misc", "date.out")),
    ("pxctl version", ("misc", "px-version.out")),
    ("pxctl status", ("misc", "px-status.out")),
    ("pxctl service kvdb members", ("misc", "px-kvdb.out")),
    ("pxctl sv k m", ("misc", "px-kvdb.out")),
    ("pxctl alerts show", ("misc", "px-alerts.out")),
    ("pxctl a s", ("misc", "px-alerts.out")),
    ("pxctl alerts show -j", ("misc", "px-alerts-show.out")),
    ("pxctl a s -j", ("misc", "px-alerts-show.out")),
    ("pxctl clouddrive list", ("misc", "px-clouddrive-list.out")),
    ("pxctl cd l", ("misc", "px-clouddrive-list.out")) ]

/-- Python `COMMAND_MAP[k]` guarded by `k in COMMAND_MAP` (the dict has
no duplicate keys, so first match is the dict lookup). -/
def lookupCM (k : String) : Option (String × String) :=
  (COMMAND_MAP.find? (fun e => e.1 == k)).map (fun e => e.2)

/-- Where the main loop sends a parsed base command; the branches appear
in the order of the `if` chain in `main`. -/
inductive Dispatch where
  | volumeList
  | volumeInspect
  | configShow
  | clusterUuidShow
  | mapped (cat : String) (fname : String)
  | unknown
deriving DecidableEq, Repr

def dispatch_base (base : String) : Dispatch :=
  if base == "pxctl volume list" || base == "pxctl v l" then .volumeList
  else if base == "pxctl volume inspect" || base == "pxctl v i" then .volumeInspect
  else if base == "pxctl config show" || base == "pxctl config s" then .configShow
  else if base == "pxctl clusteruuid show" || base == "pxctl clusteruuid s" then
    .clusterUuidShow
  else
    match lookupCM base with
    | some cf => .mapped cf.1 cf.2
    | none => .unknown

/-- Output of `stream_file`: lines printed to stdout (right-stripped), or
lines fed to the external pager. -/
inductive StreamRes where
  | printed (out : List String)
  | paged (fed : List String)
deriving DecidableEq, Repr

/-- Per-line filter of `stream_file`'s read loop (the body of
`if pipe:`): a false result means the line is skipped.  `research` is the
external `re.search` collaborator.  An absent or empty pipe keeps every
line. -/
def grepKeep (research : String → String → Bool) (pipe : Option String)
    (l : String) : Bool :=
  match pipe with
  | none => true
  | some p =>
    if p == "" then true
    else if startsW "grep " p && !(pyIn (pyStrip (strDrop p 5)) l) then false
    else if startsW "egrep " p && !(research (pyStrip (strDrop p 6)) l) then false
    else true

/-- `stream_file` from the source, over the artifact's lines (without
their trailing newlines).  A `less`/`more` pipe feeds every line to the
pager; otherwise matching lines are printed right-stripped. -/
def stream_file (research : String → String → Bool) (lines : List String)
    (pipe : Option String) : StreamRes :=
  if pipe == some "less" || pipe == some "more" then
    StreamRes.paged lines
  else
    StreamRes.printed ((lines.filter (grepKeep research pipe)).map pyRstrip)

/-- The external collaborators of the core: the extracted bundle's file
trees (`misc` and `etc/pwx`, files given as their list of lines), and
the `json`/`re` modules. -/
structure Env where
  misc : String → Option (List String)
  etcF : String → Option (List String)
  parseVols : List String → Option (List Json)
  research : String → String → Bool
  dumps : Json → String
  dumpsList : List Json → String

/-- `load_volumes` from the source: `open` raises when the artifact is
missing, `json.load` raises on malformed data. -/
def load_volumes (env : Env) : Except PyErr (List Json) :=
  match env.misc "px-volumes.out" with
  | none => Except.error PyErr.fileNotFound
  | some ls =>
    match env.parseVols ls with
    | none => Except.error PyErr.jsonDecode
    | some vs => Except.ok vs

/-- Python `v["id"] == vol_id` where `vol_id` is an optional string. -/
def pyEqOpt (j : Json) (vid : Option String) : Bool :=
  match vid with
  | some s => match j with | .str t => t == s | _ => false
  | none => match j with | .null => true | _ => false

/-- The list comprehension of the `-j` volume-list branch:
`[v for v in vols if not vol_id or v["id"] == vol_id]` (when `vol_id` is
`None` the disjunction short-circuits and `v["id"]` is never read). -/
def selectVols (vid : Option String) : List Json → Except PyErr (List Json)
  | [] => Except.ok []
  | v :: vs =>
    match vid with
    | none => do
      let rest ← selectVols none vs
      pure (v :: rest)
    | some s => do
      let idv ← getItem v "id"
      let rest ← selectVols (some s) vs
      pure (if pyEqOpt idv (some s) then v :: rest else rest)

/-- `next((v for v in vols if v["id"] == vol_id), None)` from the
inspect branch. -/
def findVol (vid : Option String) : List Json → Except PyErr (Option Json)
  | [] => Except.ok none
  | v :: vs => do
    let idv ← getItem v "id"
    if pyEqOpt idv vid then pure (some v) else findVol vid vs

/-- The `state` expression of `volume_list` (lines 148-152):
`"attached on " + v["attached_on"] if v["attached_on"] else "detached"`.
String concatenation raises `TypeError` on a truthy non-string. -/
def attach_state_list (v : Json) : Except PyErr String := do
  let att ← getItem v "attached_on"
  if truthy att then
    match att with
    | .str s => pure ("attached on " ++ s)
    | _ => Except.error PyErr.typeError
  else
    pure "detached"

/-- The state expression of `volume_inspect` (line 180):
`"attached: " + v["attached_on"] if v["attached_on"] else "detached"`. -/
def attach_state_inspect (v : Json) : Except PyErr String := do
  let att ← getItem v "attached_on"
  if truthy att then
    match att with
    | .str s => pure ("attached: " ++ s)
    | _ => Except.error PyErr.typeError
  else
    pure "detached"

/-- One row of `volume_list`, in the evaluation order of the source:
the `state` expression first, then `shared`/`encrypted`/`proxy`, then the
f-string fields left to right. -/
def volume_list_row (v : Json) : Except PyErr String := do
  let state ← attach_state_list v
  let spec ← getItem v "spec"
  let shared ← format_shared spec
  let encj ← getAttrD spec "encrypted" (Json.bool false)
  let enc := yes_no encj
  let proxj ← getAttrD spec "proxy_volume" (Json.bool false)
  let prox := yes_no proxj
  let idj ← getItem v "id"
  let idf ← pyFormat idj 23
  let locj ← getItem v "locator"
  let namej ← getAttrD locj "name" (Json.str "")
  let namef ← pyFormat namej 40
  let sizej ← getItem spec "size"
  let szn ← toIntPy sizej
  let hsf ← match human_size szn with
    | some s => pyFormat (Json.str s) 7
    | none => Except.error PyErr.typeError
  let haj ← getItem spec "ha_level"
  let haf ← pyFormat haj 3
  let cosj ← getAttrD spec "cos" (Json.str "")
  let cosU ← pyUpper cosj
  let statusj ← getItem v "status"
  pure (idf ++ " " ++ namef ++ " " ++ hsf ++ " " ++ haf ++ " " ++
    padR shared 7 ++ " " ++ padR enc 9 ++ " " ++ padR prox 12 ++ " " ++
    padR cosU 8 ++ " " ++ pyStr statusj ++ " - " ++ state)

/-- The header line of `volume_list` (two adjacent string literals in the
source). -/
def volHeader : String :=
  "ID                      NAME                                    " ++
  "SIZE    HA  SHARED ENCRYPTED PROXY-VOLUME IO_PRIORITY STATUS"

/-- Rows are printed one by one; an exception keeps the rows already
printed and aborts the loop. -/
def rowsOut : List Json → List String × Option PyErr
  | [] => ([], none)
  | v :: vs =>
    match volume_list_row v with
    | Except.error e => ([], some e)
    | Except.ok r =>
      let rest := rowsOut vs
      (r :: rest.1, rest.2)

/-- Printed output of `volume_list(misc)` once the dataset is loaded
(the function reloads the dataset itself; the load is pure, so the second
load yields the same value as the first). -/
def volume_list_out (vols : List Json) : List String × Option PyErr :=
  let rows := rowsOut vols
  (volHeader :: rows.1, rows.2)

/-- Sequential prints: each chunk is a group of lines computed together;
an exception keeps the chunks already printed and aborts. -/
def seqOut : List (Except PyErr (List String)) → List String × Option PyErr
  | [] => ([], none)
  | Except.error e :: _ => ([], some e)
  | Except.ok ls :: rest =>
    let r := seqOut rest
    (ls ++ r.1, r.2)

/-- The `Labels` block of `volume_inspect` (printed only when the labels
mapping is truthy; `.items()` raises off dicts). -/
def labelsChunk (v : Json) : Except PyErr (List String) := do
  let spec ← getItem v "spec"
  let lab ← getAttrD spec "volume_labels" (Json.obj [])
  if truthy lab then
    match lab with
    | .obj kvs =>
      pure ["Labels                   :  " ++
        String.intercalate "," (kvs.map (fun kv => kv.1 ++ "=" ++ pyStr kv.2))]
    | _ => Except.error PyErr.attrError
  else
    pure []

/-- The `Mount Options` block of `volume_inspect`. -/
def mountChunk (v : Json) : Except PyErr (List String) := do
  let spec ← getItem v "spec"
  let m1 ← getAttrD spec "mount_options" (Json.obj [])
  let m2 ← getAttrD m1 "options" (Json.obj [])
  if truthy m2 then
    match m2 with
    | .obj kvs =>
      pure ["Mount Options            :  " ++
        String.intercalate "," (kvs.map (fun kv => kv.1))]
    | _ => Except.error PyErr.attrError
  else
    pure []

/-- `zip(rs["nodes"], rs["pool_uuids"])` rendered as node/pool lines. -/
def nodePoolLines : List (Json × Json) → List String
  | [] => []
  | np :: rest =>
    ("      Node           : " ++ pyStr np.1) ::
    ("       Pool UUID     : " ++ pyStr np.2) :: nodePoolLines rest

/-- The replica-set enumeration of `volume_inspect`. -/
def replicaSetLines (i : Nat) : List Json → Except PyErr (List String)
  | [] => Except.ok []
  | rs :: rest => do
    let nodesJ ← getItem rs "nodes"
    let poolsJ ← getItem rs "pool_uuids"
    let ns ← pyIter nodesJ
    let ps ← pyIter poolsJ
    let tail ← replicaSetLines (i + 1) rest
    pure ((("    Set " ++ toString i) :: nodePoolLines (ns.zip ps)) ++ tail)

def replicaChunk (v : Json) : Except PyErr (List String) := do
  let rss ← getAttrD v "replica_sets" (Json.arr [])
  let sets ← pyIter rss
  replicaSetLines 0 sets

/-- The labelled lines of `volume_inspect` printed before the `State`
line, in source order. -/
def inspectPre (v : Json) : List (Except PyErr (List String)) :=
  [ (getItem v "id").map (fun j => ["Volume                   :  " ++ pyStr j]),
    (do
      let locj ← getItem v "locator"
      let n ← getAttrD locj "name" (Json.str "")
      pure ["Name                     :  " ++ pyStr n]),
    (do
      let spec ← getItem v "spec"
      let szj ← getItem spec "size"
      let n ← toIntPy szj
      pure ["Size                     :  " ++
        (match human_size n with | some s => s | none => "None")]),
    (do
      let spec ← getItem v "spec"
      let fj ← getAttrD spec "format" (Json.str "")
      pure ["Format                   :  " ++ pyStr fj]),
    (do
      let spec ← getItem v "spec"
      let haj ← getItem spec "ha_level"
      pure ["HA                       :  " ++ pyStr haj]),
    (do
      let spec ← getItem v "spec"
      let cj ← getAttrD spec "cos" (Json.str "")
      pure ["IO Priority              :  " ++ pyStr cj]),
    (do
      let cj ← getAttrD v "ctime" (Json.str "")
      pure ["Creation time            :  " ++ pyStr cj]),
    (do
      let spec ← getItem v "spec"
      let sh ← format_shared spec
      pure ["Shared                   :  " ++ sh]),
    (do
      let st ← getItem v "status"
      pure ["Status                   :  " ++ pyStr st]) ]

/-- The chunks of `volume_inspect` printed after the `State` line:
`Last Attached`, `Device Path`, `Bytes used`, the conditional `Labels`
and `Mount Options` blocks, the `Replica sets on nodes:` header and the
replica enumeration. -/
def inspectPost (v : Json) : List (Except PyErr (List String)) :=
  [ (do
      let dj ← getAttrD v "detach_time" (Json.str "")
      pure ["Last Attached            :  " ++ pyStr dj]),
    (do
      let dj ← getAttrD v "device_path" (Json.str "")
      pure ["Device Path              :  " ++ pyStr dj]),
    (do
      let uj ← getAttrD v "usage" (Json.num 0)
      let n ← toIntPy uj
      pure ["Bytes used               :  " ++
        (match human_size n with | some s => s | none => "None")]),
    labelsChunk v,
    mountChunk v,
    Except.ok ["Replica sets on nodes:"],
    replicaChunk v ]

/-- `volume_inspect(v)` from the source: the labelled lines in source
order (with the `State` line in the middle), then the conditional
blocks and the replica enumeration.  An exception keeps the chunks
already printed and aborts. -/
def volume_inspect_out (v : Json) : List String × Option PyErr :=
  seqOut (inspectPre v ++
    ((attach_state_inspect v).map
      (fun s => ["State                    :  " ++ s])) :: inspectPost v)

/-- Outcome of one iteration of the main loop. -/
inductive Outcome where
  | next
  | quit
  | crash (e : PyErr)
deriving DecidableEq, Repr

/-- One iteration's observable effect: lines printed to stdout, lines
fed to the external pager, and whether the loop continues. -/
structure StepRes where
  out : List String
  fed : List String
  outcome : Outcome
deriving DecidableEq, Repr

/-- The text printed by `print_help()`, split into lines (the single
`print` of a triple-quoted string that starts and ends with a
newline). -/
def helpLines : List String :=
  [ "",
    "Portworx pxctl (offline diag shell)",
    "",
    "Volume commands:",
    "  pxctl volume list | pxctl v l",
    "  pxctl volume list -j",
    "  pxctl volume list -j <volume-id>",
    "  pxctl volume inspect <volume-id> | pxctl v i <volume-id>",
    "  pxctl volume inspect -j <volume-id>",
    "",
    "Cluster / system:",
    "  pxctl status",
    "  pxctl version",
    "  pxctl service kvdb members | pxctl sv k m",
    "  pxctl alerts show",
    "  pxctl alerts show -j",
    "  pxctl clouddrive list",
    "  pxctl config show | pxctl config s",
    "  pxctl clusteruuid show | pxctl clusteruuid s",
    "",
    "Host commands:",
    "  journalctl",
    "  lsblk",
    "  blkid",
    "  ip addr show",
    "  mount",
    "  uptime",
    "  date",
    "",
    "Notes:",
    "  - \x27-j\x27 may appear anywhere in the command",
    "  - Pipes supported: | grep | egrep | less | more",
    "  - Type \x27exit\x27 or \x27quit\x27 to leave",
    "" ]

/-- `f"Volume {vol_id} not found"` (`str(None)` is `"None"`). -/
def volNotFound (vid : Option String) : String :=
  "Volume " ++ (match vid with | some s => s | none => "None") ++ " not found"

/-- The `pxctl volume list` branch of `main`. -/
def handleVolumeList (env : Env) (pc : Parsed) : StepRes :=
  match load_volumes env with
  | Except.error e => ⟨[], [], Outcome.crash e⟩
  | Except.ok vols =>
    if pc.is_json then
      match selectVols pc.vol_id vols with
      | Except.error e => ⟨[], [], Outcome.crash e⟩
      | Except.ok sel => ⟨[env.dumpsList sel], [], Outcome.next⟩
    else
      match volume_list_out vols with
      | (o, some e) => ⟨o, [], Outcome.crash e⟩
      | (o, none) => ⟨o, [], Outcome.next⟩

/-- The `pxctl volume inspect` branch of `main` (`if not v` also treats a
falsy record, an empty dict, as not found). -/
def handleVolumeInspect (env : Env) (pc : Parsed) : StepRes :=
  match load_volumes env with
  | Except.error e => ⟨[], [], Outcome.crash e⟩
  | Except.ok vols =>
    match findVol pc.vol_id vols with
    | Except.error e => ⟨[], [], Outcome.crash e⟩
    | Except.ok none => ⟨[volNotFound pc.vol_id], [], Outcome.next⟩
    | Except.ok (some v) =>
      if !truthy v then ⟨[volNotFound pc.vol_id], [], Outcome.next⟩
      else if pc.is_json then ⟨[env.dumps v], [], Outcome.next⟩
      else
        match volume_inspect_out v with
        | (o, some e) => ⟨o, [], Outcome.crash e⟩
        | (o, none) => ⟨o, [], Outcome.next⟩

/-- The `config show` / `clusteruuid show` branches: stream the
configuration file with NO pipe argument (the source does not pass the
parsed pipe here). -/
def handleEtcStream (env : Env) (fname : String) : StepRes :=
  match env.etcF fname with
  | none => ⟨[], [], Outcome.crash PyErr.fileNotFound⟩
  | some ls =>
    match stream_file env.research ls none with
    | StreamRes.printed o => ⟨o, [], Outcome.next⟩
    | StreamRes.paged f => ⟨[], f, Outcome.next⟩

/-- The `COMMAND_MAP` branch: stream the resolved artifact with the
parsed pipe. -/
def handleMapped (env : Env) (cat fname : String) (pipe : Option String) : StepRes :=
  match (if cat == "misc" then env.misc fname else env.etcF fname) with
  | none => ⟨[], [], Outcome.crash PyErr.fileNotFound⟩
  | some ls =>
    match stream_file env.research ls pipe with
    | StreamRes.printed o => ⟨o, [], Outcome.next⟩
    | StreamRes.paged f => ⟨[], f, Outcome.next⟩

/-- One iteration of the main loop on input line `raw`: strip, handle
blank/exit/help, split off a pipe at the first `|` (both sides
stripped), parse, and dispatch as `main` does. -/
def step (env : Env) (raw : String) : StepRes :=
  let cmd := pyStrip raw
  if cmd == "" then ⟨[], [], Outcome.next⟩
  else if cmd == "exit" || cmd == "quit" then ⟨[], [], Outcome.quit⟩
  else if cmd == "pxctl" || cmd == "help" || cmd == "?" || cmd == "pxctl help" ||
      cmd == "pxctl --help" then ⟨helpLines, [], Outcome.next⟩
  else
    let lp : String × Option String :=
      match splitAtPipe cmd.data with
      | some pr => (pyStrip (String.mk pr.1), some (pyStrip (String.mk pr.2)))
      | none => (cmd, none)
    let pc := parse_command lp.1
    match dispatch_base pc.base with
    | Dispatch.volumeList => handleVolumeList env pc
    | Dispatch.volumeInspect => handleVolumeInspect env pc
    | Dispatch.configShow => handleEtcStream env "config.json"
    | Dispatch.clusterUuidShow => handleEtcStream env "cluster_uuid"
    | Dispatch.mapped cat fname => handleMapped env cat fname lp.2
    | Dispatch.unknown => ⟨["Unknown command"], [], Outcome.next⟩

/-- How a session over a given input sequence ends. -/
inductive SessionEnd where
  | exhausted
  | exited
  | crashed (e : PyErr)
deriving DecidableEq, Repr

/-- The main loop over a list of input lines: collects printed output
until exit, end of input, or an uncaught exception (which aborts the
whole session; `main` has no exception handler around the loop body). -/
def runSession (env : Env) : List String → List String × SessionEnd
  | [] => ([], SessionEnd.exhausted)
  | c :: rest =>
    let r := step env c
    match r.outcome with
    | Outcome.next =>
      let t := runSession env rest
      (r.out ++ t.1, t.2)
    | Outcome.quit => (r.out, SessionEnd.exited)
    | Outcome.crash e => (r.out, SessionEnd.crashed e)

/-- An environment whose bundle contains nothing at all. -/
def emptyEnv : Env :=
  ⟨fun _ => none, fun _ => none, fun _ => none, fun _ _ => false,
   fun _ => "", fun _ => ""⟩

theorem sapp_assoc (a b c : String) : a ++ b ++ c = a ++ (b ++ c) :=
  match a, b, c with
  | ⟨x⟩, ⟨y⟩, ⟨z⟩ => congrArg String.mk (List.append_assoc x y z)

theorem fdiv_coe_1024 (m : Nat) : ((m : Int)).fdiv 1024 = ((m / 1024 : Nat) : Int) := by
  cases m with
  | zero => rfl
  | succ k => rfl

theorem fdiv_coe_1024b (m : Nat) :
    ((m : Int)).fdiv (1024 * 1024) = ((m / (1024 * 1024) : Nat) : Int) := by
  cases m with
  | zero => rfl
  | succ k => rfl

theorem fdiv_coe_1024c (m : Nat) :
    ((m : Int)).fdiv (1024 * 1024 * 1024)
      = ((m / (1024 * 1024 * 1024) : Nat) : Int) := by
  cases m with
  | zero => rfl
  | succ k => rfl

theorem fdiv_coe_1024d (m : Nat) :
    ((m : Int)).fdiv (1024 * 1024 * 1024 * 1024)
      = ((m / (1024 * 1024 * 1024 * 1024) : Nat) : Int) := by
  cases m with
  | zero => rfl
  | succ k => rfl

/-- `human_size` agrees with the unit-selection description of the
specification on every byte count below 1024⁵. -/
theorem human_size_eq_spec (b : Int) (h0 : 0 ≤ b)
    (h1 : b < 1024 * 1024 * 1024 * 1024 * 1024) :
    human_size b = some (humanSizeSpec b) := by
  obtain ⟨n, rfl⟩ := Int.eq_ofNat_of_zero_le h0
  have hn : n < 1024 * 1024 * 1024 * 1024 * 1024 := by exact_mod_cast h1
  unfold human_size humanSizeSpec
  by_cases c1 : n < 1024
  · have i1 : ((n : Nat) : Int) < 1024 := by exact_mod_cast c1
    simp only [hsGo, if_pos i1]
    rw [sapp_assoc, show (" " ++ "B" : String) = " B" from rfl]
  · have i1 : ¬(((n : Nat) : Int) < 1024) := by
      intro h
      exact c1 (by exact_mod_cast h)
    by_cases c2 : n < 1024 * 1024
    · have i2 : ((n / 1024 : Nat) : Int) < 1024 := by
        exact_mod_cast (show n / 1024 < 1024 by omega)
      have i2s : ((n : Nat) : Int) < 1024 * 1024 := by exact_mod_cast c2
      simp only [hsGo, if_neg i1, fdiv_coe_1024, if_pos i2, if_pos i2s]
      rw [sapp_assoc, show (" " ++ "KiB" : String) = " KiB" from rfl]
    · have i2 : ¬(((n / 1024 : Nat) : Int) < 1024) := by
        intro h
        have hh : n / 1024 < 1024 := by exact_mod_cast h
        omega
      have i2s : ¬(((n : Nat) : Int) < 1024 * 1024) := by
        intro h
        exact c2 (by exact_mod_cast h)
      by_cases c3 : n < 1024 * 1024 * 1024
      · have hd : n / 1024 / 1024 = n / (1024 * 1024) :=
          Nat.div_div_eq_div_mul n 1024 1024
        have i3 : ((n / 1024 / 1024 : Nat) : Int) < 1024 := by
          rw [hd]
          exact_mod_cast (show n / (1024 * 1024) < 1024 by omega)
        have i3s : ((n : Nat) : Int) < 1024 * 1024 * 1024 := by exact_mod_cast c3
        simp only [hsGo, if_neg i1, fdiv_coe_1024, if_neg i2, if_pos i3,
          if_neg i2s, if_pos i3s, fdiv_coe_1024b]
        rw [hd, sapp_assoc, show (" " ++ "MiB" : String) = " MiB" from rfl]
      · have hd : n / 1024 / 1024 = n / (1024 * 1024) :=
          Nat.div_div_eq_div_mul n 1024 1024
        have i3 : ¬(((n / 1024 / 1024 : Nat) : Int) < 1024) := by
          intro h
          rw [hd] at h
          have hh : n / (1024 * 1024) < 1024 := by exact_mod_cast h
          omega
        have i3s : ¬(((n : Nat) : Int) < 1024 * 1024 * 1024) := by
          intro h
          exact c3 (by exact_mod_cast h)
        by_cases c4 : n < 1024 * 1024 * 1024 * 1024
        · have hd2 : n / 1024 / 1024 / 1024 = n / (1024 * 1024 * 1024) := by
            rw [Nat.div_div_eq_div_mul n 1024 1024,
              Nat.div_div_eq_div_mul n (1024 * 1024) 1024]
          have i4 : ((n / 1024 / 1024 / 1024 : Nat) : Int) < 1024 := by
            rw [hd2]
            exact_mod_cast (show n / (1024 * 1024 * 1024) < 1024 by omega)
          have i4s : ((n : Nat) : Int) < 1024 * 1024 * 1024 * 1024 := by
            exact_mod_cast c4
          simp only [hsGo, if_neg i1, fdiv_coe_1024, if_neg i2, if_neg i3,
            if_pos i4, if_neg i2s, if_neg i3s, if_pos i4s, fdiv_coe_1024c]
          rw [hd2, sapp_assoc, show (" " ++ "GiB" : String) = " GiB" from rfl]
        · have hd2 : n / 1024 / 1024 / 1024 = n / (1024 * 1024 * 1024) := by
            rw [Nat.div_div_eq_div_mul n 1024 1024,
              Nat.div_div_eq_div_mul n (1024 * 1024) 1024]
          have i4 : ¬(((n / 1024 / 1024 / 1024 : Nat) : Int) < 1024) := by
            intro h
            rw [hd2] at h
            have hh : n / (1024 * 1024 * 1024) < 1024 := by exact_mod_cast h
            omega
          have i4s : ¬(((n : Nat) : Int) < 1024 * 1024 * 1024 * 1024) := by
            intro h
            exact c4 (by exact_mod_cast h)
          have hd3 : n / 1024 / 1024 / 1024 / 1024
              = n / (1024 * 1024 * 1024 * 1024) := by
            rw [Nat.div_div_eq_div_mul n 1024 1024,
              Nat.div_div_eq_div_mul n (1024 * 1024) 1024,
              Nat.div_div_eq_div_mul n (1024 * 1024 * 1024) 1024]
          have i5 : ((n / 1024 / 1024 / 1024 / 1024 : Nat) : Int) < 1024 := by
            rw [hd3]
            exact_mod_cast (show n / (1024 * 1024 * 1024 * 1024) < 1024 by omega)
          simp only [hsGo, if_neg i1, fdiv_coe_1024, if_neg i2, if_neg i3,
            if_neg i4, if_pos i5, if_neg i2s, if_neg i3s, if_neg i4s,
            fdiv_coe_1024d]
          rw [hd3, sapp_assoc, show (" " ++ "TiB" : String) = " TiB" from rfl]

/-- C1: the claim that `human_size` returns a unit string for EVERY
non-negative byte count is false: at 1024⁵ the loop exhausts its unit
list and the function returns no string (Python `None`), while the
specified behaviour would be "1024 TiB". -/
theorem C1_counterexample :
    human_size (1024 * 1024 * 1024 * 1024 * 1024) = none ∧
    humanSizeSpec (1024 * 1024 * 1024 * 1024 * 1024) = "1024 TiB" := by
  constructor
  · rfl
  · rfl

/-- C1 (amended): for every byte count `0 ≤ b < 1024⁵`, `human_size b`
returns the string of the specification (largest unit among B, KiB,
MiB, GiB, TiB with value < 1024 before the final unit, truncating
division at each step); the quoted examples hold.  For `b ≥ 1024⁵` the
function returns no string. -/
theorem C1_human_size (b : Int) (h0 : 0 ≤ b)
    (h1 : b < 1024 * 1024 * 1024 * 1024 * 1024) :
    human_size b = some (humanSizeSpec b) ∧
    human_size 1023 = some "1023 B" ∧
    human_size 1024 = some "1 KiB" ∧
    human_size 1536 = some "1 KiB" ∧
    human_size 1073741824 = some "1 GiB" := by
  refine ⟨human_size_eq_spec b h0 h1, ?_, ?_, ?_, ?_⟩ <;> rfl

theorem C1_human_size_witness :
    human_size 1073741824 = some (humanSizeSpec 1073741824) ∧
    human_size 1023 = some "1023 B" ∧
    human_size 1024 = some "1 KiB" ∧
    human_size 1536 = some "1 KiB" ∧
    human_size 1073741824 = some "1 GiB" :=
  C1_human_size 1073741824 (by decide) (by decide)

theorem find_eq_head_filter (p : α → Bool) :
    ∀ l : List α, l.find? p = (l.filter p).head? := by
  intro l
  induction l with
  | nil => rfl
  | cons a as ih =>
    by_cases h : p a
    · rw [List.find?_cons_of_pos _ h, List.filter_cons_of_pos h]
      rfl
    · rw [List.find?_cons_of_neg _ h, List.filter_cons_of_neg h]
      exact ih

/-- C2: the claim that only the extracted numeric token is removed is
false: `parse_command` removes EVERY all-digit token from the rejoined
base.  On "pxctl volume inspect 7 8" the id is "7" yet "8" is also gone
from the base. -/
theorem C2_counterexample :
    (parse_command "pxctl volume inspect 7 8").vol_id = some "7" ∧
    (parse_command "pxctl volume inspect 7 8").base = "pxctl volume inspect" ∧
    (parse_command "pxctl volume inspect 7 8").base ≠ "pxctl volume inspect 8" := by
  refine ⟨rfl, rfl, ?_⟩
  decide

/-- C2 (amended): `numeric_arg` is the first all-digit token (after the
`-j` tokens are dropped), and the rejoined base consists of exactly the
non-`-j` tokens that are NOT all digits — every all-digit token is
removed, not just the extracted one. -/
theorem C2_parse_digits (cmd : String) :
    (parse_command cmd).vol_id
      = (((tokenize cmd).filter (fun p => p != "-j")).filter isDigitTok).head? ∧
    tokenize (parse_command cmd).base
      = ((tokenize cmd).filter (fun p => p != "-j")).filter
          (fun p => !isDigitTok p) := by
  constructor
  · exact find_eq_head_filter _ _
  · show tokenize (joinSpace (((tokenize cmd).filter (fun p => p != "-j")).filter
      (fun p => !isDigitTok p))) = _
    apply tokenize_joinSpace
    intro t ht
    have h1 : t ∈ tokenize cmd :=
      List.mem_of_mem_filter (List.mem_of_mem_filter ht)
    exact pyWords_wf cmd.data [] (by simp) t h1

/-- C7: each documented full form and its abbreviation resolve
identically: through the dispatch chain of `main` for the four
special-cased commands, and through `COMMAND_MAP` for the mapped ones. -/
theorem C7_alias_equivalence :
    dispatch_base (parse_command "pxctl service kvdb members").base
      = dispatch_base (parse_command "pxctl sv k m").base ∧
    lookupCM "pxctl service kvdb members" = lookupCM "pxctl sv k m" ∧
    dispatch_base (parse_command "pxctl alerts show").base
      = dispatch_base (parse_command "pxctl a s").base ∧
    lookupCM "pxctl alerts show" = lookupCM "pxctl a s" ∧
    dispatch_base (parse_command "pxctl clouddrive list").base
      = dispatch_base (parse_command "pxctl cd l").base ∧
    lookupCM "pxctl clouddrive list" = lookupCM "pxctl cd l" ∧
    dispatch_base (parse_command "pxctl volume list").base
      = dispatch_base (parse_command "pxctl v l").base ∧
    dispatch_base (parse_command "pxctl volume inspect").base
      = dispatch_base (parse_command "pxctl v i").base ∧
    dispatch_base (parse_command "pxctl config show").base
      = dispatch_base (parse_command "pxctl config s").base ∧
    dispatch_base (parse_command "pxctl clusteruuid show").base
      = dispatch_base (parse_command "pxctl clusteruuid s").base := by
  decide

theorem except_bind_ok {α β ε : Type} (a : α) (f : α → Except ε β) :
    (Except.ok a >>= f) = f a := rfl

theorem except_bind_error {α β ε : Type} (e : ε) (f : α → Except ε β) :
    ((Except.error e : Except ε α) >>= f) = Except.error e := rfl

theorem runSession_cons (env : Env) (c : String) (rest : List String) :
    runSession env (c :: rest)
      = (match (step env c).outcome with
          | Outcome.next =>
            ((step env c).out ++ (runSession env rest).1, (runSession env rest).2)
          | Outcome.quit => ((step env c).out, SessionEnd.exited)
          | Outcome.crash e => ((step env c).out, SessionEnd.crashed e)) := rfl

theorem runSession_cons_next (env : Env) (c : String) (rest : List String)
    (o fed : List String) (h : step env c = ⟨o, fed, Outcome.next⟩) :
    runSession env (c :: rest)
      = (o ++ (runSession env rest).1, (runSession env rest).2) := by
  rw [runSession_cons, h]

theorem runSession_cons_crash (env : Env) (c : String) (rest : List String)
    (o fed : List String) (e : PyErr) (h : step env c = ⟨o, fed, Outcome.crash e⟩) :
    runSession env (c :: rest) = (o, SessionEnd.crashed e) := by
  rw [runSession_cons, h]

theorem stream_none (research : String → String → Bool) (lines : List String) :
    stream_file research lines none = StreamRes.printed (lines.map pyRstrip) := by
  unfold stream_file
  rw [show ((none : Option String) == some "less"
    || (none : Option String) == some "more") = false from rfl]
  simp only [Bool.false_eq_true, if_false]
  have hf : List.filter (grepKeep research none) lines = lines :=
    List.filter_eq_self.mpr (fun a _ => rfl)
  rw [hf]

/-- An environment whose `misc` tree has just `lsblk.out`. -/
def envLsblk : Env :=
  { emptyEnv with
    misc := fun f => if f == "lsblk.out" then some ["alpha", "beta"] else none }

/-- C4: a pipe whose filter text is not grep/egrep/less/more is NOT
rejected: the command streams the artifact unfiltered and the session
moves on, with no error report. -/
theorem C4_counterexample :
    step envLsblk "lsblk | sort" = ⟨["alpha", "beta"], [], Outcome.next⟩ := by
  rfl

/-- C4 (amended): filter text that does not begin with `grep ` or
`egrep ` and is not `less`/`more` is silently ignored by `stream_file`:
every line of the artifact is emitted, right-stripped, as if no filter
had been given. -/
theorem C4_unknown_filter_ignored (research : String → String → Bool)
    (lines : List String) (p : String)
    (hg : startsW "grep " p = false) (he : startsW "egrep " p = false)
    (hl : p ≠ "less") (hm : p ≠ "more") :
    stream_file research lines (some p) = StreamRes.printed (lines.map pyRstrip) := by
  have e1 : (p == "less") = false := beq_eq_false_iff_ne.mpr hl
  have e2 : (p == "more") = false := beq_eq_false_iff_ne.mpr hm
  have h1 : (some p == some "less" || some p == some "more") = false := by
    show (p == "less" || p == "more") = false
    rw [e1, e2]
    rfl
  unfold stream_file
  simp only [h1, Bool.false_eq_true, if_false]
  have hf : List.filter (grepKeep research (some p)) lines = lines := by
    apply List.filter_eq_self.mpr
    intro a _
    unfold grepKeep
    by_cases hp : (p == "") = true
    · simp [hp]
    · simp only [hp, Bool.false_eq_true, if_false, hg, he, Bool.false_and,
        if_false]
  rw [hf]

theorem C4_witness :
    stream_file (fun _ _ => false) ["alpha"] (some "sort")
      = StreamRes.printed (["alpha"].map pyRstrip) :=
  C4_unknown_filter_ignored (fun _ _ => false) ["alpha"] "sort" rfl rfl
    (by decide) (by decide)

/-- C3: with an empty bundle the artifact command `lsblk` raises an
uncaught file-not-found error: no error line is printed and the session
terminates without processing the following `date` command. -/
theorem C3_counterexample :
    runSession emptyEnv ["lsblk", "date"]
      = ([], SessionEnd.crashed PyErr.fileNotFound) := by
  rfl

/-- C3 (amended): when a command resolves through the alias table to an
artifact that does not exist in the bundle, `stream_file`'s `open`
raises an unhandled file-not-found error; nothing is reported to the
user and the session terminates instead of continuing. -/
theorem C3_missing_artifact_crashes (env : Env) (raw : String)
    (rest : List String) (cat fname : String)
    (h1 : (pyStrip raw == "") = false)
    (h2 : (pyStrip raw == "exit" || pyStrip raw == "quit") = false)
    (h3 : (pyStrip raw == "pxctl" || pyStrip raw == "help" ||
      pyStrip raw == "?" || pyStrip raw == "pxctl help" ||
      pyStrip raw == "pxctl --help") = false)
    (h4 : splitAtPipe (pyStrip raw).data = none)
    (h5 : dispatch_base (parse_command (pyStrip raw)).base
      = Dispatch.mapped cat fname)
    (h6 : (if cat == "misc" then env.misc fname else env.etcF fname) = none) :
    runSession env (raw :: rest) = ([], SessionEnd.crashed PyErr.fileNotFound) := by
  have hstep : step env raw = ⟨[], [], Outcome.crash PyErr.fileNotFound⟩ := by
    unfold step
    simp only [h1, h2, h3, Bool.false_eq_true, if_false, h4, h5]
    unfold handleMapped
    rw [h6]
  exact runSession_cons_crash env raw rest [] [] PyErr.fileNotFound hstep

theorem C3_witness :
    runSession emptyEnv ["lsblk"] = ([], SessionEnd.crashed PyErr.fileNotFound) :=
  C3_missing_artifact_crashes emptyEnv "lsblk" [] "misc" "lsblk.out"
    rfl rfl rfl rfl rfl rfl

/-- A bundle whose volume dataset artifact exists but does not parse. -/
def envBadVols : Env :=
  { emptyEnv with
    misc := fun f => if f == "px-volumes.out" then some ["not json"] else none }

/-- C5: a volume command against a malformed volume dataset raises an
uncaught decode error: no error line is printed and the session
terminates without processing the following `date` command. -/
theorem C5_counterexample :
    runSession envBadVols ["pxctl volume list", "date"]
      = ([], SessionEnd.crashed PyErr.jsonDecode) := by
  rfl

/-- C5 (amended): when the volume dataset artifact is missing the volume
command raises an unhandled file-not-found error, and when it does not
parse an unhandled decode error; in both cases nothing is reported and
the session terminates instead of continuing. -/
theorem C5_malformed_dataset_crashes :
    (∀ (env : Env) (rest : List String),
      env.misc "px-volumes.out" = none →
      runSession env ("pxctl volume list" :: rest)
        = ([], SessionEnd.crashed PyErr.fileNotFound)) ∧
    (∀ (env : Env) (ls : List String) (rest : List String),
      env.misc "px-volumes.out" = some ls → env.parseVols ls = none →
      runSession env ("pxctl volume list" :: rest)
        = ([], SessionEnd.crashed PyErr.jsonDecode)) := by
  constructor
  · intro env rest h
    have hstep : step env "pxctl volume list"
        = ⟨[], [], Outcome.crash PyErr.fileNotFound⟩ := by
      rw [show step env "pxctl volume list"
        = handleVolumeList env ⟨"pxctl volume list", false, none⟩ from rfl]
      unfold handleVolumeList load_volumes
      rw [h]
    exact runSession_cons_crash env _ rest [] [] PyErr.fileNotFound hstep
  · intro env ls rest h hp
    have hstep : step env "pxctl volume list"
        = ⟨[], [], Outcome.crash PyErr.jsonDecode⟩ := by
      rw [show step env "pxctl volume list"
        = handleVolumeList env ⟨"pxctl volume list", false, none⟩ from rfl]
      unfold handleVolumeList load_volumes
      simp only [h, hp]
    exact runSession_cons_crash env _ rest [] [] PyErr.jsonDecode hstep

theorem C5_witness :
    runSession emptyEnv ["pxctl volume list"]
      = ([], SessionEnd.crashed PyErr.fileNotFound) :=
  C5_malformed_dataset_crashes.1 emptyEnv [] rfl

theorem grep_ne_lit (t s : String) (hs : s.data.head? ≠ some 'g') :
    ("grep " ++ t) ≠ s := by
  intro hq
  have hd : some 'g' = s.data.head? := by
    rw [← hq]
    rfl
  exact hs hd.symm

/-- A bundle whose configuration tree has just `config.json`. -/
def envCfg : Env :=
  { emptyEnv with
    etcF := fun f => if f == "config.json" then some ["hasX X", "noY"] else none }

/-- C6: the claim includes `config show` among the grep-filterable
commands, but `main` calls `stream_file` WITHOUT the parsed pipe there:
`pxctl config show | grep X` emits every line, including one that does
not contain X. -/
theorem C6_counterexample :
    (step envCfg "pxctl config show | grep X").out = ["hasX X", "noY"] ∧
    pyIn "X" "noY" = false := by
  constructor
  · rfl
  · rfl

/-- C6 (amended): for commands resolved through the alias table, a
trailing `grep` filter emits exactly the artifact lines containing the
(stripped) term as a literal substring, in file order; for
`config show` (and `clusteruuid show`) the parsed filter is discarded
and every line of the artifact is emitted. -/
theorem C6_grep_filter :
    (∀ (research : String → String → Bool) (lines : List String) (t : String),
      stream_file research lines (some ("grep " ++ t))
        = StreamRes.printed
            ((lines.filter (fun l => pyIn (pyStrip t) l)).map pyRstrip)) ∧
    (∀ (env : Env) (lines rest : List String),
      env.etcF "config.json" = some lines →
      runSession env ("pxctl config show | grep x" :: rest)
        = ((lines.map pyRstrip) ++ (runSession env rest).1,
           (runSession env rest).2)) := by
  constructor
  · intro research lines t
    have hempty : (("grep " ++ t) == "") = false :=
      beq_eq_false_iff_ne.mpr (grep_ne_lit t "" (by decide))
    have hsw : startsW "grep " ("grep " ++ t) = true := by
      unfold startsW
      rw [sdata_append, show ("grep ").data = ['g', 'r', 'e', 'p', ' '] from rfl]
      exact lpre_append _ _
    have hsw2 : startsW "egrep " ("grep " ++ t) = false := rfl
    have hdrop : strDrop ("grep " ++ t) 5 = t := rfl
    have hk : ∀ l, grepKeep research (some ("grep " ++ t)) l
        = pyIn (pyStrip t) l := by
      intro l
      unfold grepKeep
      simp only [hempty, Bool.false_eq_true, if_false, hsw, hdrop, hsw2,
        Bool.true_and, Bool.false_and]
      cases hpy : pyIn (pyStrip t) l
      · simp [hpy]
      · simp [hpy]
    have hpager : (some ("grep " ++ t) == some "less"
        || some ("grep " ++ t) == some "more") = false := by
      have a1 : (("grep " ++ t) == "less") = false :=
        beq_eq_false_iff_ne.mpr (grep_ne_lit t "less" (by decide))
      have a2 : (("grep " ++ t) == "more") = false :=
        beq_eq_false_iff_ne.mpr (grep_ne_lit t "more" (by decide))
      show (("grep " ++ t) == "less" || ("grep " ++ t) == "more") = false
      rw [a1, a2]
      rfl
    unfold stream_file
    simp only [hpager, Bool.false_eq_true, if_false]
    rw [List.filter_congr (fun x _ => hk x)]
  · intro env lines rest h
    have hstep : step env "pxctl config show | grep x"
        = ⟨lines.map pyRstrip, [], Outcome.next⟩ := by
      rw [show step env "pxctl config show | grep x"
        = handleEtcStream env "config.json" from rfl]
      unfold handleEtcStream
      simp only [h, stream_none]
    exact runSession_cons_next env _ rest _ _ hstep

theorem C6_witness :
    (stream_file (fun _ _ => false) ["has X", "no"] (some ("grep " ++ "X"))
      = StreamRes.printed
          ((["has X", "no"].filter (fun l => pyIn (pyStrip "X") l)).map pyRstrip)) ∧
    (runSession envCfg ["pxctl config show | grep x"]
      = ((["hasX X", "noY"].map pyRstrip) ++ ([] : List String),
         SessionEnd.exhausted)) :=
  ⟨C6_grep_filter.1 (fun _ _ => false) ["has X", "no"] "X",
   C6_grep_filter.2 envCfg ["hasX X", "noY"] [] rfl⟩

theorem findVol_none (s : String) : ∀ vols : List Json,
    (∀ v ∈ vols, ∃ j, getItem v "id" = Except.ok j
      ∧ pyEqOpt j (some s) = false) →
    findVol (some s) vols = Except.ok none := by
  intro vols
  induction vols with
  | nil => intro _; rfl
  | cons v vs ih =>
    intro h
    obtain ⟨j, hj, hne⟩ := h v (by simp)
    show (getItem v "id" >>= fun idv =>
      if pyEqOpt idv (some s) = true then pure (some v)
      else findVol (some s) vs) = Except.ok none
    rw [hj, except_bind_ok]
    simp only [hne, Bool.false_eq_true, if_false]
    exact ih (fun x hx => h x (by simp [hx]))

/-- C8: `pxctl volume inspect -j 100` against a dataset with no record
of id "100" prints exactly the one line `Volume 100 not found`, and the
session goes on to process the remaining input unchanged. -/
theorem C8_inspect_not_found (env : Env) (ls : List String) (vols : List Json)
    (rest : List String)
    (h1 : env.misc "px-volumes.out" = some ls)
    (h2 : env.parseVols ls = some vols)
    (h3 : ∀ v ∈ vols, ∃ j, getItem v "id" = Except.ok j
      ∧ pyEqOpt j (some "100") = false) :
    runSession env ("pxctl volume inspect -j 100" :: rest)
      = ("Volume 100 not found" :: (runSession env rest).1,
         (runSession env rest).2) := by
  have hstep : step env "pxctl volume inspect -j 100"
      = ⟨["Volume 100 not found"], [], Outcome.next⟩ := by
    rw [show step env "pxctl volume inspect -j 100"
      = handleVolumeInspect env ⟨"pxctl volume inspect", true, some "100"⟩ from rfl]
    unfold handleVolumeInspect load_volumes
    simp only [h1, h2, findVol_none "100" vols h3]
    rfl
  rw [runSession_cons_next env _ rest _ _ hstep]
  rfl

/-- A bundle with one volume record, of id "200". -/
def envOneVol : Env :=
  { emptyEnv with
    misc := fun f => if f == "px-volumes.out" then some ["dataset"] else none,
    parseVols := fun _ => some [Json.obj [("id", Json.str "200")]] }

theorem C8_witness :
    runSession envOneVol ["pxctl volume inspect -j 100"]
      = (["Volume 100 not found"], SessionEnd.exhausted) :=
  (C8_inspect_not_found envOneVol ["dataset"]
      [Json.obj [("id", Json.str "200")]] [] rfl rfl
      (by
        intro v hv
        rw [List.mem_singleton] at hv
        subst hv
        exact ⟨Json.str "200", rfl, rfl⟩)).trans rfl

theorem lookup_alerts_show_j : ∀ b : String,
    lookupCM b = some ("misc", "px-alerts-show.out") →
    b = "pxctl alerts show -j" ∨ b = "pxctl a s -j" := by
  intro b h
  unfold lookupCM at h
  cases hf : COMMAND_MAP.find? (fun e => e.1 == b) with
  | none => rw [hf] at h; simp at h
  | some e =>
    rw [hf] at h
    simp at h
    have hmem := List.mem_of_find?_eq_some hf
    have hpb := List.find?_some hf
    have hb : e.1 = b := by simpa using hpb
    simp only [COMMAND_MAP, List.mem_cons, List.not_mem_nil, or_false] at hmem
    rcases hmem with rfl | rfl | rfl | rfl | rfl | rfl | rfl | rfl | rfl |
      rfl | rfl | rfl | rfl | rfl | rfl | rfl | rfl <;>
      first
        | exact absurd h (by decide)
        | exact Or.inl hb.symm
        | exact Or.inr hb.symm

theorem parse_base_tokens (cmd : String) :
    tokenize (parse_command cmd).base
      = ((tokenize cmd).filter (fun p => p != "-j")).filter
          (fun p => !isDigitTok p) := by
  show tokenize (joinSpace (((tokenize cmd).filter (fun p => p != "-j")).filter
    (fun p => !isDigitTok p))) = _
  apply tokenize_joinSpace
  intro t ht
  exact pyWords_wf cmd.data [] (by simp) t
    (List.mem_of_mem_filter (List.mem_of_mem_filter ht))

/-- C9: no input line can select the `COMMAND_MAP` entries keyed with a
trailing `-j` (every `-j` token is removed before the lookup), so
`px-alerts-show.out` is never streamed; `pxctl alerts show -j` resolves
to the same entry as `pxctl alerts show`. -/
theorem C9_dash_j_entries_unreachable :
    (∀ cmd : String,
      lookupCM (parse_command cmd).base ≠ some ("misc", "px-alerts-show.out")) ∧
    parse_command "pxctl alerts show -j"
      = ⟨"pxctl alerts show", true, none⟩ ∧
    lookupCM "pxctl alerts show" = some ("misc", "px-alerts.out") := by
  refine ⟨?_, rfl, rfl⟩
  intro cmd h
  have hj : ("-j" : String) ∈ tokenize (parse_command cmd).base := by
    rcases lookup_alerts_show_j _ h with hb | hb <;> rw [hb] <;> decide
  rw [parse_base_tokens cmd] at hj
  have h1 : ("-j" : String) ∈ (tokenize cmd).filter (fun p => p != "-j") :=
    List.mem_of_mem_filter hj
  have h2 := List.of_mem_filter h1
  exact absurd h2 (by decide)

theorem seqOut_append_error (xs : List (Except PyErr (List String)))
    (e : PyErr) (ys : List (Except PyErr (List String))) :
    (seqOut (xs ++ Except.error e :: ys)).2 ≠ none := by
  induction xs with
  | nil => simp [seqOut]
  | cons x xs ih =>
    cases x with
    | error e2 => simp [seqOut]
    | ok ls => simpa [seqOut] using ih

/-- C10: both renderers read `attached_on` by direct key access.  When
the key is present with a null or empty value the state renders as
"detached"; when the key is absent the table row fails immediately with
the key error, and the detail renderer's print sequence also fails, so
rendering is total only on records carrying the key. -/
theorem C10_attached_on_access :
    (∀ v : Json,
      getItem v "attached_on" = Except.error (PyErr.keyError "attached_on") →
      volume_list_row v = Except.error (PyErr.keyError "attached_on") ∧
      (volume_inspect_out v).2 ≠ none) ∧
    (∀ v : Json,
      getItem v "attached_on" = Except.ok Json.null ∨
      getItem v "attached_on" = Except.ok (Json.str "") →
      attach_state_list v = Except.ok "detached" ∧
      attach_state_inspect v = Except.ok "detached") := by
  constructor
  · intro v h
    have hsl : attach_state_list v
        = Except.error (PyErr.keyError "attached_on") := by
      unfold attach_state_list
      rw [h, except_bind_error]
    have hsi : attach_state_inspect v
        = Except.error (PyErr.keyError "attached_on") := by
      unfold attach_state_inspect
      rw [h, except_bind_error]
    constructor
    · unfold volume_list_row
      rw [hsl, except_bind_error]
    · unfold volume_inspect_out
      rw [hsi]
      rw [show (Except.error (PyErr.keyError "attached_on")
          : Except PyErr String).map
            (fun s => ["State                    :  " ++ s])
        = (Except.error (PyErr.keyError "attached_on")
          : Except PyErr (List String)) from rfl]
      exact seqOut_append_error (inspectPre v) _ (inspectPost v)
  · intro v h
    have hstate : ∀ att, getItem v "attached_on" = Except.ok att →
        truthy att = false →
        attach_state_list v = Except.ok "detached" ∧
        attach_state_inspect v = Except.ok "detached" := by
      intro att ha ht
      constructor
      · unfold attach_state_list
        rw [ha, except_bind_ok]
        simp only [ht, Bool.false_eq_true, if_false]
        rfl
      · unfold attach_state_inspect
        rw [ha, except_bind_ok]
        simp only [ht, Bool.false_eq_true, if_false]
        rfl
    rcases h with h | h
    · exact hstate Json.null h rfl
    · exact hstate (Json.str "") h rfl

theorem C10_witness :
    (volume_list_row (Json.obj [("id", Json.str "v1")])
        = Except.error (PyErr.keyError "attached_on") ∧
      (volume_inspect_out (Json.obj [("id", Json.str "v1")])).2 ≠ none) ∧
    (attach_state_list (Json.obj [("attached_on", Json.null)])
        = Except.ok "detached" ∧
      attach_state_inspect (Json.obj [("attached_on", Json.null)])
        = Except.ok "detached") :=
  ⟨C10_attached_on_access.1 (Json.obj [("id", Json.str "v1")]) rfl,
   C10_attached_on_access.2 (Json.obj [("attached_on", Json.null)])
     (Or.inl rfl)⟩
